import Mathlib

/-!
Verification development for the AirDarwin ground-control monitor
(`src/index.py`): a shallow embedding of the telemetry decoder
(`SerialCommunication._parse_telemetry`), the serial lifecycle
(`SerialCommunication.disconnect`), and the flight-state update /
safety-analysis pipeline (`ModernHUD.update_from_telemetry`,
`ModernHUD._analyze_real_data`, `ModernHUD._analyze_smart_telemetry`),
together with theorems settling the specification's claims about them.

Modelling conventions:
* Python floats are modelled as rationals (`ℚ`); the claims under study
  are about branch structure and exact thresholds, not rounding.
* Python ints are `ℤ`; Python `int(x)` truncation toward zero is
  `pyTrunc`.
* `math.sin`/`math.cos` (transcendental) are abstracted as an arbitrary
  function bundle `MathModel`; every theorem quantifies over it.
* Wall-clock `time.time()` is an explicit parameter `now`.
* Fallible Python code (the decoder's enclosing `try`/`except`) is
  modelled with `Except`/`Option`: an expression on which Python would
  raise becomes an `Except.error` that aborts the surrounding
  computation exactly where the `except` clause catches it.
-/

/-- Python `int(x)` on a float: truncation toward zero.  A rational's
denominator is positive, so `Int.tdiv` of numerator by denominator is
exactly truncation toward zero. -/
def pyTrunc (q : ℚ) : ℤ :=
  Int.tdiv q.num q.den

/-- Floor of a rational (`q.den` is positive, so Euclidean division of
the numerator by the denominator rounds toward negative infinity). -/
def ratFloor (q : ℚ) : ℤ :=
  Int.ediv q.num q.den

/-- Python's `round`-to-nearest with ties to even, as used by the
`:.0f` / `:.1f` format specifiers (banker's rounding of float
formatting; modelled on exact rationals). -/
def pyRoundHalfEven (q : ℚ) : ℤ :=
  let f := ratFloor q
  let r := q - (f : ℚ)
  if r < 1/2 then f
  else if 1/2 < r then f + 1
  else if f % 2 = 0 then f else f + 1

/-- Python f-string `{x:.0f}`: the value rounded to an integer
(half-to-even), printed without decimals. -/
def pyFmtF0 (q : ℚ) : String :=
  toString (pyRoundHalfEven q)

/-- Python f-string `{x:.1f}`: the value rounded to one decimal
(half-to-even). -/
def pyFmtF1 (q : ℚ) : String :=
  let n := pyRoundHalfEven (q * 10)
  let a := n.natAbs
  (if n < 0 then "-" else "") ++ toString (a / 10) ++ "." ++ toString (a % 10)

/-- `needle` occurs as a contiguous substring of `hay` (character
lists). -/
def infixCheck (needle : List Char) : List Char → Bool
  | [] => needle.isEmpty
  | c :: t => needle.isPrefixOf (c :: t) || infixCheck needle t

/-- Python `needle in hay` on strings: substring containment. -/
def pyIn (needle hay : String) : Bool :=
  infixCheck needle.data hay.data

/-- Characters `'0'..'9'` to their value, everything else `none`
(Python `float`/`int` reject non-digits). -/
def digitVal? (c : Char) : Option ℕ :=
  if c.isDigit then some (c.toNat - 48) else none

/-- A non-empty all-digit character list to its value; `none` exactly
when empty or containing a non-digit. -/
def digits? : List Char → Option ℕ
  | [] => none
  | [c] => digitVal? c
  | c :: cs => do
      let d ← digitVal? c
      let r ← digits? cs
      pure (d * 10 ^ cs.length + r)

/-- Split off an optional leading `+`/`-` sign, Python-number style. -/
def splitSign : List Char → ℤ × List Char
  | '-' :: cs => (-1, cs)
  | '+' :: cs => (1, cs)
  | cs => (1, cs)

/-- Python `str.split(sep)` for a one-character separator (the only
form the decoder uses: `split("|")`, `split(",")`). -/
def splitOnChar (sep : Char) : List Char → List (List Char)
  | [] => [[]]
  | c :: t =>
      match splitOnChar sep t with
      | [] => [[]]
      | h :: r => if c = sep then [] :: h :: r else (c :: h) :: r

/-- Python `str.split(sep, 1)` for a one-character separator, as a
split at the first occurrence: `none` when the separator is absent
(so `isSome` is exactly Python's `sep in part`). -/
def breakAt (sep : Char) : List Char → Option (List Char × List Char)
  | [] => none
  | c :: t =>
      if c = sep then some ([], t)
      else (breakAt sep t).map (fun p => (c :: p.1, p.2))

/-- Model of Python `float(value)` restricted to plain decimal
literals: optional sign, integer digits and/or a fractional part
separated by `.`, optional `e`/`E` exponent with optional sign.  The
whitespace, underscore, `inf` and `nan` forms accepted by CPython do
not occur on this wire protocol and are not modelled.  `none` models a
raised `ValueError`. -/
def pyFloat? (s : List Char) : Option ℚ := do
  let (sg, cs) := splitSign s
  let (mant, ex) ←
    match splitOnChar 'e' cs, splitOnChar 'E' cs with
    | [m], [_] => some (m, ([] : List Char))
    | [m, e], [_] => some (m, e)
    | [_], [m, e] => some (m, e)
    | _, _ => none
  let mval : ℚ ←
    match splitOnChar '.' mant with
    | [a] => do pure (((← digits? a) : ℤ) : ℚ)
    | [a, b] =>
        match a, b with
        | [], [] => none
        | [], b => do pure ((((← digits? b) : ℤ) : ℚ) / 10 ^ b.length)
        | a, [] => do pure (((← digits? a) : ℤ) : ℚ)
        | a, b => do
            pure ((((← digits? a) : ℤ) : ℚ) + (((← digits? b) : ℤ) : ℚ) / 10 ^ b.length)
    | _ => none
  let eexp : ℤ ←
    if ex.isEmpty then some 0
    else
      let (esg, ecs) := splitSign ex
      do pure (esg * ((← digits? ecs) : ℤ))
  pure ((sg : ℚ) * mval * (10 : ℚ) ^ eexp)

/-- Model of Python `int(value)`: optional sign followed by digits
only.  `none` models a raised `ValueError`. -/
def pyInt? (s : List Char) : Option ℤ := do
  let (sg, cs) := splitSign s
  pure (sg * ((← digits? cs) : ℤ))

/-- Decoder output: the `data` dict built by
`SerialCommunication._parse_telemetry`.  Every key that a line may or
may not carry is an `Option` field; `battery` is read by
`update_from_telemetry` through `data.get('battery', ...)` but is never
produced by the parser. -/
structure TelemetryFrame where
  mode : Option String := none
  airspeed : Option ℚ := none
  altitude : Option ℚ := none
  heading : Option ℚ := none
  roll : Option ℚ := none
  pitch : Option ℚ := none
  throttle : Option ℤ := none
  waypoint : Option ℤ := none
  safety_state : Option String := none
  gps_ok : Option Bool := none
  imu_ok : Option Bool := none
  link_ok : Option Bool := none
  motor_armed : Option Bool := none
  battery : Option ℚ := none
deriving DecidableEq, Repr

/-- One iteration of the parser's `for part in parts` loop.  `first`
is `parts[0]` (read by the unrecognized-key branch: `elif
len(parts) > 0: data['mode'] = parts[0]`).  `Except.error ()` models an
exception raised inside the loop (caught by the function's enclosing
`try`, which then returns `None` for the whole line). -/
def parseStep (first : List Char) (d : TelemetryFrame) (part : List Char) :
    Except Unit TelemetryFrame :=
  match breakAt ':' part with
  | none => .ok d
  | some (key, value) =>
    -- key, value = part.split(":", 1)
    if key = "AS".data then
      match pyFloat? value with
      | some v => .ok { d with airspeed := some v }
      | none => .error ()
    else if key = "Alt".data then
      match pyFloat? value with
      | some v => .ok { d with altitude := some v }
      | none => .error ()
    else if key = "Hdg".data then
      match pyFloat? value with
      | some v => .ok { d with heading := some v }
      | none => .error ()
    else if key = "Att".data then
      let roll_pitch := splitOnChar ',' value
      if roll_pitch.length = 2 then
        match pyFloat? (roll_pitch.headD []), pyFloat? (roll_pitch.getD 1 []) with
        | some r, some p => .ok { d with roll := some r, pitch := some p }
        | _, _ => .error ()
      else
        .ok d
    else if key = "Thr".data then
      match pyInt? value with
      | some v => .ok { d with throttle := some v }
      | none => .error ()
    else if key = "WP".data then
      match pyInt? value with
      | some v => .ok { d with waypoint := some v }
      | none => .error ()
    else if key = "Saf".data then
      .ok { d with safety_state := some (String.mk value) }
    else if key = "Sys".data then
      .ok { d with gps_ok := some (value.contains 'G'),
                   imu_ok := some (value.contains 'I'),
                   link_ok := some (value.contains 'L'),
                   motor_armed := some (value.contains 'M') }
    else
      -- elif len(parts) > 0: data['mode'] = parts[0]  (always true here)
      .ok { d with mode := some (String.mk first) }

/-- The parser's loop over all pipe-separated parts. -/
def parseLoop (first : List Char) : TelemetryFrame → List (List Char) → Except Unit TelemetryFrame
  | d, [] => .ok d
  | d, p :: ps =>
      match parseStep first d p with
      | .ok d2 => parseLoop first d2 ps
      | .error e => .error e

/-- `SerialCommunication._parse_telemetry`: lines not starting with
`"SUM:"` fall through to `return None`; an exception anywhere in the
loop is caught and also yields `None`. -/
def parse_telemetry (line : String) : Option TelemetryFrame :=
  if "SUM:".data.isPrefixOf line.data then
    let parts := splitOnChar '|' (line.data.drop 4)
    match parseLoop (parts.headD []) {} parts with
    | .ok d => some d
    | .error _ => none
  else
    none

/-- The abstract transcendental functions the analysis uses.
`sinDeg x` / `cosDeg x` model `math.sin(math.radians(x))` /
`math.cos(math.radians(x))`; `sinRaw x` models `math.sin(x)` applied
to the wall-clock time factor. -/
structure MathModel where
  sinDeg : ℚ → ℚ
  cosDeg : ℚ → ℚ
  sinRaw : ℚ → ℚ

/-- The `ModernHUD` telemetry/derived-metric attributes that the
decoding-and-analysis pipeline reads or writes. -/
structure FlightState where
  airspeed : ℚ
  altitude : ℚ
  heading : ℚ
  battery : ℚ
  mode : String
  armed : Bool
  roll : ℚ
  pitch : ℚ
  gps_sats : ℤ
  hdop : ℚ
  safety_state : String
  throttle : ℤ
  wind_speed : ℚ
  connection_status : String
  last_data_time : ℚ
  rssi : ℤ
  cpu_load : ℤ
  memory_usage : ℤ
  temperature : ℚ
  flight_time : ℚ
  distance_traveled : ℚ
  max_altitude : ℚ
  avg_speed : ℚ
  wind_direction : ℚ
  crosswind_component : ℚ
  headwind_component : ℚ
  ground_speed : ℚ
  total_energy : ℚ
  max_speed : ℚ
  min_speed : ℚ
  warnings : List String
  critical_alerts : List String
  smart_recommendations : List String
  performance_tips : List String
  system_status : List String

/-- The attribute values `ModernHUD.__init__` assigns. -/
def initState : FlightState where
  airspeed := 0
  altitude := 0
  heading := 0
  battery := 0
  mode := "NO DATA"
  armed := false
  roll := 0
  pitch := 0
  gps_sats := 0
  hdop := 99
  safety_state := "UNKNOWN"
  throttle := 1000
  wind_speed := 0
  connection_status := "DISCONNECTED"
  last_data_time := 0
  rssi := -45
  cpu_load := 15
  memory_usage := 45
  temperature := 25
  flight_time := 0
  distance_traveled := 0
  max_altitude := 0
  avg_speed := 0
  wind_direction := 270
  crosswind_component := 0
  headwind_component := 0
  ground_speed := 0
  total_energy := 0
  max_speed := 0
  min_speed := 999
  warnings := []
  critical_alerts := []
  smart_recommendations := []
  performance_tips := []
  system_status := []

-- The alert strings of `_analyze_smart_telemetry`, byte-for-byte from
-- the source's f-strings (the dynamic field spliced between the literal
-- pieces).

def critBatteryMsg (remaining_time : ℤ) : String :=
  "🚨 CRITICAL BATTERY: " ++ (toString remaining_time ++ "min left - LAND NOW")

def lowBatteryMsg (remaining_time : ℤ) : String :=
  "⚠️ LOW BATTERY: " ++ (toString remaining_time ++ "min - Plan landing")

def gpsCriticalMsg : String :=
  "🛰️ GPS CRITICAL: <4 sats - Manual control only"

def attitudeCriticalMsg : String :=
  "🔄 ATTITUDE CRITICAL: Roll limit exceeded"

def stallCriticalMsg : String :=
  "🚨 STALL CRITICAL: Speed below Vs - Recovery needed"

def gpsLimitedMsg (sats : ℤ) : String :=
  "🛰️ GPS LIMITED: " ++ (toString sats ++ " sats - Navigation degraded")

def hdopMsg (hdop : ℚ) : String :=
  "📍 GPS ACCURACY LOW: HDOP " ++ pyFmtF1 hdop

def speedLowMsg : String :=
  "🏃 SPEED LOW: Approaching stall - Increase throttle"

def speedHighMsg : String :=
  "⚡ SPEED HIGH: Approaching VNE - Reduce throttle"

def highAltitudeMsg : String :=
  "📏 HIGH ALTITUDE: Check local regulations"

def veryLowMsg : String :=
  "⬇️ VERY LOW: Ground collision risk"

def crosswindMsg (crosswind : ℚ) : String :=
  "� STRONG CROSSWIND: " ++ (pyFmtF0 crosswind ++ " km/h")

-- AirDarwin.ino safety constants (identical blocks in
-- `_analyze_real_data` and `_analyze_smart_telemetry`).

def CRITICAL_MIN_AIRSPEED : ℚ := 28.0

def STALL_WARNING_SPEED : ℚ := 33.0

def CRITICAL_MAX_AIRSPEED : ℚ := 110.0

def CRITICAL_MAX_ROLL : ℚ := 30.0

def GPS_MIN_SATELLITES : ℤ := 6

def GPS_MAX_HDOP : ℚ := 1.8

/-- The critical-alert appends of `_analyze_smart_telemetry`, in source
order (`if`/`elif` for battery; independent `if`s for GPS, attitude and
stall). -/
def smartCriticals (s : FlightState) : List String :=
  (if s.battery < 15 then [critBatteryMsg (pyTrunc (s.battery * 0.3))]
   else if s.battery < 25 then [lowBatteryMsg (pyTrunc (s.battery * 0.4))]
   else [])
  ++ (if s.gps_sats < 4 then [gpsCriticalMsg] else [])
  ++ (if |s.roll| > CRITICAL_MAX_ROLL then [attitudeCriticalMsg] else [])
  ++ (if s.airspeed ≤ CRITICAL_MIN_AIRSPEED ∧ s.armed then [stallCriticalMsg] else [])

/-- The warning appends of `_analyze_smart_telemetry`, in source order;
`crit` is the critical list already built in the same run (read by the
GPS suppression check `any("GPS CRITICAL" in alert ...)`). -/
def smartWarnings (s : FlightState) (crit : List String) : List String :=
  (if s.gps_sats < GPS_MIN_SATELLITES ∧ ¬(crit.any (fun alert => pyIn "GPS CRITICAL" alert))
   then [gpsLimitedMsg s.gps_sats] else [])
  ++ (if s.hdop > GPS_MAX_HDOP then [hdopMsg s.hdop] else [])
  ++ (if s.armed ∧ s.airspeed < STALL_WARNING_SPEED then [speedLowMsg]
      else if s.airspeed > CRITICAL_MAX_AIRSPEED * 0.9 then [speedHighMsg]
      else [])
  ++ (if s.altitude > 350 then [highAltitudeMsg]
      else if s.armed ∧ s.altitude < 3 then [veryLowMsg]
      else [])
  ++ (if |s.crosswind_component| > 15 then [crosswindMsg s.crosswind_component] else [])

/-- The smart-recommendation `if`/`elif` chain of
`_analyze_smart_telemetry`; `crit` is the already-built critical list
(read through `len(self.critical_alerts) == 0`). -/
def smartRecommendations (s : FlightState) (crit : List String) : List String :=
  if s.mode = "ARMED" ∧ crit.length = 0 then
    ["✅ Systems ready - Safe for takeoff"]
  else if s.mode = "TAKEOFF" ∧ s.altitude > 30 then
    ["🎯 Good climb - Consider waypoint navigation"]
  else if s.battery < 40 ∧ s.altitude > 80 then
    ["🏠 Battery <40% - Consider RTL mode"]
  else if s.wind_speed > 20 then
    ["💨 High wind - Use auto-land for safer landing"]
  else
    []

/-- The performance-tip appends of `_analyze_smart_telemetry` (armed
only). -/
def performanceTips (s : FlightState) : List String :=
  if s.armed then
    let efficiency :=
      (s.distance_traveled / max 0.01 (s.flight_time / 3600.0)) / max 1 (100 - s.battery) * 100
    (if efficiency > 80 then ["🌟 EXCELLENT flight efficiency"]
     else if efficiency < 40 then ["💡 TIP: Smoother controls improve efficiency"]
     else [])
    ++ (if s.avg_speed > 0 then
          let speed_efficiency := (s.avg_speed / 60.0) * 100
          if speed_efficiency > 90 then ["⚡ Optimal cruise speed maintained"]
          else if speed_efficiency < 50 then ["🎯 TIP: 50-70 km/h is most efficient"]
          else []
        else [])
  else
    []

/-- The system-status lines of `_analyze_smart_telemetry` (the info
tier). -/
def systemStatus (s : FlightState) : List String :=
  let signal_strength :=
    if s.rssi > -40 then "EXCELLENT" else if s.rssi > -60 then "GOOD" else "WEAK"
  let temp_status :=
    if 10 < s.temperature ∧ s.temperature < 40 then "NORMAL" else "EXTREME"
  let cpu_status := if s.cpu_load < 80 then "NORMAL" else "HIGH"
  let mem_status := if s.memory_usage < 85 then "NORMAL" else "HIGH"
  ["📡 Signal: " ++ (signal_strength ++ (" (" ++ (toString s.rssi ++ " dBm)"))),
   "🌡️ Temp: " ++ (temp_status ++ (" (" ++ (pyFmtF0 s.temperature ++ "°C)"))),
   "🖥️ CPU: " ++ (cpu_status ++ (" (" ++ (toString s.cpu_load ++ "%)"))),
   "💾 Memory: " ++ (mem_status ++ (" (" ++ (toString s.memory_usage ++ "%)")))]

/-- The armed-only derived-metric block at the top of
`_analyze_smart_telemetry` (wind components, energies, min/max speed
tracking, simulated cpu/memory load from the wall clock, rssi). -/
def armedPhysics (s : FlightState) (now : ℚ) (m : MathModel) : FlightState :=
  if s.armed then
    let wind_angle := |s.heading - s.wind_direction|
    let crosswind := s.wind_speed * m.sinDeg wind_angle
    let headwind := s.wind_speed * m.cosDeg wind_angle
    let ground := max 0 (s.airspeed - headwind)
    let aircraft_mass : ℚ := 5.0
    let kinetic_energy := 0.5 * aircraft_mass * (s.airspeed / 3.6) ^ 2
    let potential_energy := aircraft_mass * 9.81 * s.altitude
    let new_max := if s.airspeed > s.max_speed then s.airspeed else s.max_speed
    let new_min := if s.airspeed < s.min_speed ∧ s.airspeed > 5 then s.airspeed else s.min_speed
    let time_factor := now * 0.1
    let cpu := 25 + pyTrunc (10 * m.sinRaw time_factor)
    let mem := 50 + pyTrunc (15 * m.sinRaw (time_factor * 0.7))
    let base_rssi : ℚ := -45
    let altitude_factor := s.altitude * 0.1
    let attitude_factor := |s.roll| * 0.3
    let rssi0 := pyTrunc (base_rssi + altitude_factor - attitude_factor)
    { s with crosswind_component := crosswind,
             headwind_component := headwind,
             ground_speed := ground,
             total_energy := kinetic_energy + potential_energy,
             max_speed := new_max,
             min_speed := new_min,
             cpu_load := cpu,
             memory_usage := mem,
             rssi := max (-90) (min (-30) rssi0) }
  else
    s

/-- `ModernHUD._analyze_smart_telemetry`.  The function first clears
the five alert lists, runs the armed-only derived-metric block, then
rebuilds the lists by in-place appends; since the cleared lists are
never read before being rebuilt, the clearing is absorbed into the
final record update. -/
def analyze_smart_telemetry (s : FlightState) (now : ℚ) (m : MathModel) : FlightState :=
  let s1 := armedPhysics s now m
  let crit := smartCriticals s1
  let warn := smartWarnings s1 crit
  let recs := smartRecommendations s1 crit
  let tips := performanceTips s1
  let status := systemStatus s1
  { s1 with critical_alerts := crit,
            warnings := warn,
            smart_recommendations := recs,
            performance_tips := tips,
            system_status := status }

/-- The critical alert `_analyze_real_data` appends when
`connection_status == "NO DATA"`. -/
def noTelemetryMsg : String :=
  "🚨 NO TELEMETRY DATA - Check connection"

/-- `ModernHUD._analyze_real_data`: clears warnings and criticals; if
the link monitor reports `"NO DATA"` it appends the single no-telemetry
critical and returns; otherwise it rebuilds both lists from the current
attributes (its message texts differ slightly from the smart tier's). -/
def analyze_real_data (s : FlightState) : FlightState :=
  if s.connection_status = "NO DATA" then
    { s with warnings := [], critical_alerts := [noTelemetryMsg] }
  else
    let crit :=
      (if s.battery < 15 then
         ["🚨 CRITICAL BATTERY: " ++ (pyFmtF0 s.battery ++ "% - LAND NOW")]
       else if s.battery < 25 then
         ["⚠️ LOW BATTERY: " ++ (pyFmtF0 s.battery ++ "% - Plan landing")]
       else [])
      ++ (if s.gps_sats < 4 then [gpsCriticalMsg] else [])
      ++ (if |s.roll| > CRITICAL_MAX_ROLL then [attitudeCriticalMsg] else [])
      ++ (if s.airspeed ≤ CRITICAL_MIN_AIRSPEED ∧ s.armed then [stallCriticalMsg] else [])
    let warn :=
      (if s.gps_sats < 6 ∧ ¬(crit.any (fun alert => pyIn "GPS CRITICAL" alert))
       then ["🛰️ GPS LIMITED: " ++ (toString s.gps_sats ++ " sats")] else [])
      ++ (if s.armed ∧ s.airspeed < STALL_WARNING_SPEED then ["🏃 SPEED LOW: Approaching stall"]
          else if s.airspeed > CRITICAL_MAX_AIRSPEED * 0.9 then ["⚡ SPEED HIGH: Approaching VNE"]
          else [])
      ++ (if s.altitude > 350 then ["📏 HIGH ALTITUDE: Check regulations"]
          else if s.armed ∧ s.altitude < 3 then [veryLowMsg]
          else [])
    { s with warnings := warn, critical_alerts := crit }

/-- `ModernHUD.update_from_telemetry`: stamp the arrival time, carry
each frame field into the state (`data.get(key, old)`), lossy-map
`gps_ok` to a satellite count, then run `_analyze_real_data` followed
by `_analyze_smart_telemetry`. -/
def update_from_telemetry (s : FlightState) (data : TelemetryFrame) (now : ℚ)
    (m : MathModel) : FlightState :=
  let s1 := { s with
    last_data_time := now,
    airspeed := data.airspeed.getD s.airspeed,
    altitude := data.altitude.getD s.altitude,
    heading := data.heading.getD s.heading,
    battery := data.battery.getD s.battery,
    mode := data.mode.getD s.mode,
    armed := data.motor_armed.getD s.armed,
    roll := data.roll.getD s.roll,
    pitch := data.pitch.getD s.pitch,
    throttle := data.throttle.getD s.throttle,
    safety_state := data.safety_state.getD s.safety_state }
  let s2 :=
    match data.gps_ok with
    | some g => { s1 with gps_sats := if g then 8 else 3 }
    | none => s1
  analyze_smart_telemetry (analyze_real_data s2) now m

/-- Side effects of the serial lifecycle, in emission order. -/
inductive SerialEvent where
  | timerStop : SerialEvent
  | portClose : String → SerialEvent
  | statusEmit : Bool → String → SerialEvent
deriving DecidableEq, Repr

/-- The `SerialCommunication` attributes `disconnect` touches:
`serial_port` (an open handle identified by its port name, or `None`),
`current_port`, and whether `read_timer` is running. -/
structure SerialComm where
  serial_port : Option String
  current_port : String
  timer_active : Bool
deriving DecidableEq, Repr

/-- `SerialCommunication.disconnect`: guarded by
`if self.serial_port:` — with an open port it stops the read timer,
closes and drops the handle, clears `current_port` and emits
`connection_status(False, "Disconnected")`; with no open port the
entire body is skipped and nothing is emitted. -/
def SerialComm.disconnect (c : SerialComm) : SerialComm × List SerialEvent :=
  match c.serial_port with
  | some p =>
      (⟨none, "", false⟩,
       [.timerStop, .portClose p, .statusEmit false "Disconnected"])
  | none => (c, [])

/-- The trivial instantiation of the transcendental-function bundle,
used to evaluate the pipeline at concrete inputs. -/
def zeroMath : MathModel where
  sinDeg := fun _ => 0
  cosDeg := fun _ => 0
  sinRaw := fun _ => 0

lemma head_of_append {a : String} (b : String) {c : Char}
    (h : a.data.head? = some c) : (a ++ b).data.head? = some c := by
  rw [String.data_append]
  cases hd : a.data with
  | nil => rw [hd] at h; cases h
  | cons x xs => rw [hd] at h; simpa using h

lemma ne_of_head {w v : String} (h : w.data.head? ≠ v.data.head?) : w ≠ v :=
  fun e => h (by rw [e])

lemma mem_ite_singleton {α : Type} {c : Prop} [Decidable c] {w m : α} :
    (w ∈ if c then [m] else []) ↔ c ∧ w = m := by
  by_cases hc : c <;> simp [hc]

lemma mem_ite_pair {α : Type} {c1 c2 : Prop} [Decidable c1] [Decidable c2] {w m1 m2 : α} :
    (w ∈ if c1 then [m1] else if c2 then [m2] else []) ↔
      (c1 ∧ w = m1) ∨ (¬c1 ∧ c2 ∧ w = m2) := by
  by_cases h1 : c1
  · simp [h1]
  · by_cases h2 : c2 <;> simp [h1, h2]

lemma critBatteryMsg_head (n : ℤ) : (critBatteryMsg n).data.head? = some '🚨' :=
  head_of_append _ rfl

lemma lowBatteryMsg_head (n : ℤ) : (lowBatteryMsg n).data.head? = some '⚠' :=
  head_of_append _ rfl

lemma gpsLimitedMsg_head (n : ℤ) : (gpsLimitedMsg n).data.head? = some '🛰' :=
  head_of_append _ rfl

lemma hdopMsg_head (q : ℚ) : (hdopMsg q).data.head? = some '📍' :=
  head_of_append _ rfl

lemma crosswindMsg_head (q : ℚ) : (crosswindMsg q).data.head? = some '�' :=
  head_of_append _ rfl

lemma parseLoop_error_of_step_error (first p : List Char)
    (hp : ∀ d, parseStep first d p = .error ()) :
    ∀ (l1 : List (List Char)) (l2 : List (List Char)) (d : TelemetryFrame),
      parseLoop first d (l1 ++ p :: l2) = .error () := by
  intro l1
  induction l1 with
  | nil =>
      intro l2 d
      simp only [List.nil_append, parseLoop, hp d]
  | cons c t ih =>
      intro l2 d
      simp only [List.cons_append, parseLoop]
      cases parseStep first d c with
      | ok d2 => exact ih l2 d2
      | error e => rfl

lemma parseStep_att_wrong_arity (first v : List Char)
    (hv : (splitOnChar ',' v).length ≠ 2) (d : TelemetryFrame) :
    parseStep first d ("Att:".data ++ v) = .ok d := by
  have hb : breakAt ':' ("Att:".data ++ v) = some ("Att".data, v) := by
    with_unfolding_all rfl
  simp only [parseStep, hb]
  simp +decide [hv]

lemma parseLoop_att_wrong_arity (first v : List Char)
    (hv : (splitOnChar ',' v).length ≠ 2) :
    ∀ (l1 l2 : List (List Char)) (d : TelemetryFrame),
      parseLoop first d (l1 ++ ("Att:".data ++ v) :: l2) = parseLoop first d (l1 ++ l2) := by
  intro l1
  induction l1 with
  | nil =>
      intro l2 d
      simp only [List.nil_append, parseLoop, parseStep_att_wrong_arity first v hv d]
  | cons c t ih =>
      intro l2 d
      simp only [List.cons_append, parseLoop]
      cases parseStep first d c with
      | ok d2 => exact ih l2 d2
      | error e => rfl

/-- C8: the decoder is a total function — on every line it returns a
frame or nothing, never an exception (exceptions inside the loop are
caught and become `none`) — and every line that does not begin with the
fixed prefix `"SUM:"` yields nothing. -/
theorem decoder_total_and_prefix_guard (line : String) :
    ("SUM:".data.isPrefixOf line.data = false → parse_telemetry line = none) ∧
    (parse_telemetry line = none ∨ ∃ f, parse_telemetry line = some f) := by
  constructor
  · intro h
    simp only [parse_telemetry, h, Bool.false_eq_true, if_false]
  · cases parse_telemetry line with
    | none => exact Or.inl rfl
    | some f => exact Or.inr ⟨f, rfl⟩

/-- Witness for `decoder_total_and_prefix_guard` at the concrete
prefix-less line `"hello"`. -/
theorem decoder_total_and_prefix_guard_witness :
    "SUM:".data.isPrefixOf "hello".data = false ∧ parse_telemetry "hello" = none :=
  ⟨by with_unfolding_all rfl,
   (decoder_total_and_prefix_guard "hello").1 (by with_unfolding_all rfl)⟩

set_option maxRecDepth 100000 in
/-- C3 fails on the code: on the well-formed line
`"SUM:MANUAL|AS:50|Alt:120"` (no unrecognized `key:value` pair) the
decoder leaves `mode` unset, while the claimed contract demands
`mode = "MANUAL"`; `mode` is populated only when an unrecognized
`key:value` pair (here `X:1`) is encountered later in the line. -/
theorem mode_token_recovery_defect :
    parse_telemetry "SUM:MANUAL|AS:50|Alt:120" =
      some { airspeed := some 50, altitude := some 120 } ∧
    (parse_telemetry "SUM:MANUAL|AS:50|Alt:120").bind TelemetryFrame.mode = none ∧
    parse_telemetry "SUM:MANUAL|AS:50|X:1|Alt:120" =
      some { mode := some "MANUAL", airspeed := some 50, altitude := some 120 } := by
  refine ⟨?_, ?_, ?_⟩ <;> with_unfolding_all decide

set_option maxRecDepth 100000 in
/-- C2 fails on the code: a malformed numeric value does not drop just
that field — the exception it raises is caught by the `try` wrapping
the whole loop, so the entire line yields nothing.  On
`"SUM:MANUAL|AS:abc|Alt:120"` the claim demands a frame with
`altitude = 120` and no airspeed; the decoder returns `none`. -/
theorem decoder_partial_failure_counterexample :
    parse_telemetry "SUM:MANUAL|AS:abc|Alt:120" = none := by
  with_unfolding_all decide

set_option maxRecDepth 100000 in
/-- C2 amended: a part on which the loop body raises (any recognized
numeric key whose value fails its grammar) aborts the whole line to
`error`, wherever it sits; only an `Att` value with component count ≠ 2
is dropped field-by-field, the rest of the line processed exactly as if
the part were absent.  At line level: `"AS:abc"` kills the whole line
while `"Att:1,2,3"` only loses roll/pitch and keeps `Alt:120`. -/
theorem decoder_malformed_field_behavior :
    (∀ first p, (∀ d, parseStep first d p = .error ()) →
      ∀ l1 l2 d, parseLoop first d (l1 ++ p :: l2) = .error ()) ∧
    (∀ first v, (splitOnChar ',' v).length ≠ 2 →
      ∀ l1 l2 d, parseLoop first d (l1 ++ ("Att:".data ++ v) :: l2)
        = parseLoop first d (l1 ++ l2)) ∧
    parse_telemetry "SUM:MANUAL|AS:abc|Alt:120" = none ∧
    parse_telemetry "SUM:MANUAL|Att:1,2,3|Alt:120" = some { altitude := some 120 } := by
  refine ⟨parseLoop_error_of_step_error, parseLoop_att_wrong_arity, ?_, ?_⟩ <;>
    with_unfolding_all decide

set_option maxRecDepth 100000 in
/-- Witness for `decoder_malformed_field_behavior`: its two quantified
parts applied at the concrete parts `"AS:abc"` and `"Att:1,2,3"` inside
the line `MANUAL|·|Alt:120`. -/
theorem decoder_malformed_field_behavior_witness :
    parseLoop "MANUAL".data {} ["MANUAL".data, "AS:abc".data, "Alt:120".data] = .error () ∧
    parseLoop "MANUAL".data {} ["MANUAL".data, "Att:".data ++ "1,2,3".data, "Alt:120".data]
      = parseLoop "MANUAL".data {} ["MANUAL".data, "Alt:120".data] := by
  constructor
  · exact decoder_malformed_field_behavior.1 "MANUAL".data "AS:abc".data
      (fun d => by with_unfolding_all rfl) ["MANUAL".data] ["Alt:120".data] {}
  · exact decoder_malformed_field_behavior.2.1 "MANUAL".data "1,2,3".data
      (by with_unfolding_all decide) ["MANUAL".data] ["Alt:120".data] {}

/-- C9 fails on the code: `disconnect` on an already-disconnected link
is guarded by `if self.serial_port:` — the body is skipped entirely, so
no status-change event (and no timer stop or close) is emitted, while
the claim demands an emission on every call. -/
theorem disconnect_silent_when_disconnected :
    (SerialComm.disconnect ⟨none, "", false⟩).2 = [] ∧
    (SerialComm.disconnect ⟨none, "", false⟩).1 = ⟨none, "", false⟩ := by
  exact ⟨rfl, rfl⟩

/-- C9 amended: `disconnect` is idempotent on the state, and a second
call emits nothing; a call with an open port stops the read timer,
closes and releases the device, clears the port name and emits the
status change, while a call with no open port is a complete no-op that
emits no event at all. -/
theorem disconnect_idempotent_and_guarded (c : SerialComm) :
    ((SerialComm.disconnect (SerialComm.disconnect c).1).1 = (SerialComm.disconnect c).1 ∧
     (SerialComm.disconnect (SerialComm.disconnect c).1).2 = []) ∧
    (∀ p, c.serial_port = some p →
      SerialComm.disconnect c =
        (⟨none, "", false⟩,
         [.timerStop, .portClose p, .statusEmit false "Disconnected"])) ∧
    (c.serial_port = none → SerialComm.disconnect c = (c, [])) := by
  obtain ⟨port, cur, tim⟩ := c
  cases port with
  | none =>
      refine ⟨⟨rfl, rfl⟩, ?_, fun _ => rfl⟩
      intro p hp
      cases hp
  | some q =>
      refine ⟨⟨rfl, rfl⟩, ?_, ?_⟩
      · intro p hp
        cases hp
        rfl
      · intro hp
        cases hp

/-- Witness for `disconnect_idempotent_and_guarded` at a concrete
connected link on port `"COM3"`. -/
theorem disconnect_idempotent_and_guarded_witness :
    SerialComm.disconnect ⟨some "COM3", "COM3", true⟩ =
      (⟨none, "", false⟩,
       [.timerStop, .portClose "COM3", .statusEmit false "Disconnected"]) :=
  (disconnect_idempotent_and_guarded ⟨some "COM3", "COM3", true⟩).2.1 "COM3" rfl

lemma armedPhysics_battery (s : FlightState) (now : ℚ) (m : MathModel) :
    (armedPhysics s now m).battery = s.battery := by
  by_cases h : s.armed <;> simp [armedPhysics, h]

lemma armedPhysics_gps_sats (s : FlightState) (now : ℚ) (m : MathModel) :
    (armedPhysics s now m).gps_sats = s.gps_sats := by
  by_cases h : s.armed <;> simp [armedPhysics, h]

lemma analyze_real_data_gps_sats (s : FlightState) :
    (analyze_real_data s).gps_sats = s.gps_sats := by
  by_cases h : s.connection_status = "NO DATA" <;> simp [analyze_real_data, h]

lemma analyze_smart_telemetry_gps_sats (s : FlightState) (now : ℚ) (m : MathModel) :
    (analyze_smart_telemetry s now m).gps_sats = s.gps_sats := by
  simpa [analyze_smart_telemetry] using armedPhysics_gps_sats s now m

lemma analyze_smart_telemetry_critical_alerts (s : FlightState) (now : ℚ) (m : MathModel) :
    (analyze_smart_telemetry s now m).critical_alerts = smartCriticals (armedPhysics s now m) :=
  rfl

lemma analyze_smart_telemetry_warnings (s : FlightState) (now : ℚ) (m : MathModel) :
    (analyze_smart_telemetry s now m).warnings =
      smartWarnings (armedPhysics s now m) (smartCriticals (armedPhysics s now m)) :=
  rfl

lemma lowBatteryMsg_mem_smartCriticals (s : FlightState)
    (h1 : 15 ≤ s.battery) (h2 : s.battery < 25) :
    lowBatteryMsg (pyTrunc (s.battery * 0.4)) ∈ smartCriticals s := by
  have hn : ¬s.battery < 15 := not_lt.mpr h1
  simp only [smartCriticals, List.mem_append]
  left; left; left
  simp [hn, h2]

lemma lowBatteryMsg_notin_smartWarnings (n : ℤ) (s : FlightState) (crit : List String) :
    lowBatteryMsg n ∉ smartWarnings s crit := by
  intro hw
  simp only [smartWarnings, List.mem_append, mem_ite_singleton, mem_ite_pair] at hw
  rcases hw with ((((h | h) | (h | h)) | (h | h)) | h)
  · exact ne_of_head (by rw [lowBatteryMsg_head, gpsLimitedMsg_head]; decide) h.2
  · exact ne_of_head (by rw [lowBatteryMsg_head, hdopMsg_head]; decide) h.2
  · exact ne_of_head (by rw [lowBatteryMsg_head]; decide) h.2
  · exact ne_of_head (by rw [lowBatteryMsg_head]; decide) h.2.2
  · exact ne_of_head (by rw [lowBatteryMsg_head]; decide) h.2
  · exact ne_of_head (by rw [lowBatteryMsg_head]; decide) h.2.2
  · exact ne_of_head (by rw [lowBatteryMsg_head, crosswindMsg_head]; decide) h.2

lemma gpsCriticalMsg_mem_smartCriticals (s : FlightState) :
    gpsCriticalMsg ∈ smartCriticals s ↔ s.gps_sats < 4 := by
  constructor
  · intro hw
    simp only [smartCriticals, List.mem_append, mem_ite_singleton, mem_ite_pair] at hw
    rcases hw with (((h | h) | h) | h) | h
    · exact absurd h.2 (ne_of_head (by rw [critBatteryMsg_head]; decide)).symm
    · exact absurd h.2.2 (ne_of_head (by rw [lowBatteryMsg_head]; decide)).symm
    · exact h.1
    · exact absurd h.2 (by decide)
    · exact absurd h.2 (by decide)
  · intro h
    simp only [smartCriticals, List.mem_append]
    left; left; right
    simp [h]

lemma gpsLimitedMsg_mem_smartWarnings {n : ℤ} {s : FlightState} {crit : List String}
    (hw : gpsLimitedMsg n ∈ smartWarnings s crit) :
    s.gps_sats < GPS_MIN_SATELLITES ∧
      ¬(crit.any (fun alert => pyIn "GPS CRITICAL" alert) = true) := by
  simp only [smartWarnings, List.mem_append, mem_ite_singleton, mem_ite_pair] at hw
  rcases hw with ((((h | h) | (h | h)) | (h | h)) | h)
  · exact h.1
  · exact absurd h.2 (ne_of_head (by rw [gpsLimitedMsg_head, hdopMsg_head]; decide))
  · exact absurd h.2 (ne_of_head (by rw [gpsLimitedMsg_head]; decide))
  · exact absurd h.2.2 (ne_of_head (by rw [gpsLimitedMsg_head]; decide))
  · exact absurd h.2 (ne_of_head (by rw [gpsLimitedMsg_head]; decide))
  · exact absurd h.2.2 (ne_of_head (by rw [gpsLimitedMsg_head]; decide))
  · exact absurd h.2 (ne_of_head (by rw [gpsLimitedMsg_head, crosswindMsg_head]; decide))

set_option maxRecDepth 100000 in
/-- C4 fails on the code: only `min_speed` is guarded by the 5 km/h
noise floor; `max_speed` updates whenever armed airspeed exceeds the
running maximum.  From the initial state with the vehicle armed at
airspeed 3 km/h (≤ 5), one analysis pass moves `max_speed` from 0 to 3
even though the claim says both accumulators stay unchanged. -/
theorem minmax_noise_floor_counterexample :
    (analyze_smart_telemetry { initState with armed := true, airspeed := 3 } 0 zeroMath).max_speed = 3 ∧
    ({ initState with armed := true, airspeed := 3 } : FlightState).max_speed = 0 ∧
    ¬(({ initState with armed := true, airspeed := 3 } : FlightState).airspeed > 5) := by
  refine ⟨?_, ?_, ?_⟩ <;> with_unfolding_all decide

/-- C4 amended: per analysis pass, `max_speed` becomes the airspeed
exactly when the vehicle is armed and airspeed exceeds the running
maximum (no noise floor), and `min_speed` becomes the airspeed exactly
when armed, below the running minimum and above the 5 km/h noise
floor; in every other situation — in particular whenever disarmed —
both accumulators are unchanged. -/
theorem minmax_speed_update_rule (s : FlightState) (now : ℚ) (m : MathModel) :
    (analyze_smart_telemetry s now m).max_speed =
      (if s.armed = true ∧ s.airspeed > s.max_speed then s.airspeed else s.max_speed) ∧
    (analyze_smart_telemetry s now m).min_speed =
      (if s.armed = true ∧ (s.airspeed < s.min_speed ∧ s.airspeed > 5) then s.airspeed
       else s.min_speed) := by
  by_cases h : s.armed <;> simp [analyze_smart_telemetry, armedPhysics, h]

set_option maxRecDepth 100000 in
/-- C5 fails on the code: with battery in `[15, 25)` the low-battery
entry is appended to `critical_alerts` (the `elif` of the
battery-critical branch targets the same list), not to `warnings` —
here at battery 20 %, where the warning list is empty. -/
theorem battery_low_tier_counterexample :
    lowBatteryMsg 8 ∈
      (analyze_smart_telemetry { initState with battery := 20, gps_sats := 8, hdop := 1 }
        0 zeroMath).critical_alerts ∧
    (analyze_smart_telemetry { initState with battery := 20, gps_sats := 8, hdop := 1 }
        0 zeroMath).warnings = [] := by
  refine ⟨?_, ?_⟩ <;> with_unfolding_all decide

/-- C5 amended: for every state with battery at least 15 % and below
25 %, evaluation appends the battery-low entry to the critical list,
and no battery-low entry ever appears in the warning list. -/
theorem battery_low_goes_to_critical (s : FlightState) (now : ℚ) (m : MathModel)
    (h1 : 15 ≤ s.battery) (h2 : s.battery < 25) :
    lowBatteryMsg (pyTrunc (s.battery * 0.4)) ∈
      (analyze_smart_telemetry s now m).critical_alerts ∧
    ∀ n, lowBatteryMsg n ∉ (analyze_smart_telemetry s now m).warnings := by
  constructor
  · rw [analyze_smart_telemetry_critical_alerts]
    have hb := armedPhysics_battery s now m
    have := lowBatteryMsg_mem_smartCriticals (armedPhysics s now m)
      (by rw [hb]; exact h1) (by rw [hb]; exact h2)
    rwa [hb] at this
  · intro n
    rw [analyze_smart_telemetry_warnings]
    exact lowBatteryMsg_notin_smartWarnings n _ _

/-- Witness for `battery_low_goes_to_critical` at battery 20 %
(`int(20 * 0.4) = 8` minutes). -/
theorem battery_low_goes_to_critical_witness :
    lowBatteryMsg (pyTrunc ((20:ℚ) * 0.4)) ∈
      (analyze_smart_telemetry { initState with battery := 20 } 0 zeroMath).critical_alerts :=
  (battery_low_goes_to_critical { initState with battery := 20 } 0 zeroMath
    (by norm_num) (by norm_num)).1

/-- C6: the GPS suppression invariant — no evaluation result carries
both the GPS-critical entry in the critical list and a GPS-limited
entry in the warning list (the warning branch is guarded by
`any("GPS CRITICAL" in alert ...)` over the criticals built in the
same pass); and with exactly 3 satellites the critical GPS entry is
present while every GPS-limited entry is absent. -/
theorem gps_suppression_invariant (s : FlightState) (now : ℚ) (m : MathModel) :
    (¬(gpsCriticalMsg ∈ (analyze_smart_telemetry s now m).critical_alerts ∧
       ∃ n, gpsLimitedMsg n ∈ (analyze_smart_telemetry s now m).warnings)) ∧
    (s.gps_sats = 3 →
      gpsCriticalMsg ∈ (analyze_smart_telemetry s now m).critical_alerts ∧
      ∀ n, gpsLimitedMsg n ∉ (analyze_smart_telemetry s now m).warnings) := by
  have hcrit := analyze_smart_telemetry_critical_alerts s now m
  have hwarn := analyze_smart_telemetry_warnings s now m
  constructor
  · rintro ⟨hc, n, hw⟩
    rw [hcrit] at hc
    rw [hwarn] at hw
    have hsupp := (gpsLimitedMsg_mem_smartWarnings hw).2
    exact hsupp (List.any_eq_true.mpr ⟨gpsCriticalMsg, hc, by decide⟩)
  · intro h3
    have hc : gpsCriticalMsg ∈ smartCriticals (armedPhysics s now m) := by
      rw [gpsCriticalMsg_mem_smartCriticals, armedPhysics_gps_sats, h3]
      decide
    constructor
    · rw [hcrit]; exact hc
    · intro n hw
      rw [hwarn] at hw
      exact (gpsLimitedMsg_mem_smartWarnings hw).2
        (List.any_eq_true.mpr ⟨gpsCriticalMsg, hc, by decide⟩)

set_option maxRecDepth 100000 in
/-- Witness for `gps_suppression_invariant` at a concrete state with 3
satellites: the GPS-critical entry fires and the 3-satellite
GPS-limited entry is suppressed. -/
theorem gps_suppression_invariant_witness :
    gpsCriticalMsg ∈
      (analyze_smart_telemetry { initState with gps_sats := 3 } 0 zeroMath).critical_alerts ∧
    gpsLimitedMsg 3 ∉
      (analyze_smart_telemetry { initState with gps_sats := 3 } 0 zeroMath).warnings := by
  have h := (gps_suppression_invariant { initState with gps_sats := 3 } 0 zeroMath).2 rfl
  exact ⟨h.1, h.2 3⟩

/-- C7: evaluation is deterministic in the flight state — the
critical, warning and recommendation lists produced by
`_analyze_smart_telemetry` are identical across runs at different
wall-clock times on the same state (time reaches only the simulated
cpu/memory load figures of the info tier). -/
theorem evaluation_deterministic (s : FlightState) (t1 t2 : ℚ) (m : MathModel) :
    (analyze_smart_telemetry s t1 m).critical_alerts =
      (analyze_smart_telemetry s t2 m).critical_alerts ∧
    (analyze_smart_telemetry s t1 m).warnings = (analyze_smart_telemetry s t2 m).warnings ∧
    (analyze_smart_telemetry s t1 m).smart_recommendations =
      (analyze_smart_telemetry s t2 m).smart_recommendations := by
  by_cases h : s.armed <;>
    simp [analyze_smart_telemetry, armedPhysics, h, smartCriticals, smartWarnings,
      smartRecommendations]

/-- C10: a frame carrying the system-flags field maps `gps_ok` to a
coarse satellite count — exactly 3 when false (below the critical
threshold 4, so the GPS-critical alert fires on that very evaluation)
and exactly 8 when true (above both GPS thresholds, so no GPS
satellite alert can fire from the frame itself). -/
theorem gps_flag_lossy_mapping (s : FlightState) (d : TelemetryFrame) (now : ℚ)
    (m : MathModel) :
    (d.gps_ok = some false →
      (update_from_telemetry s d now m).gps_sats = 3 ∧
      gpsCriticalMsg ∈ (update_from_telemetry s d now m).critical_alerts) ∧
    (d.gps_ok = some true →
      (update_from_telemetry s d now m).gps_sats = 8 ∧
      gpsCriticalMsg ∉ (update_from_telemetry s d now m).critical_alerts ∧
      ∀ n, gpsLimitedMsg n ∉ (update_from_telemetry s d now m).warnings) := by
  constructor
  · intro h
    simp only [update_from_telemetry, h]
    refine ⟨?_, ?_⟩
    · rw [analyze_smart_telemetry_gps_sats, analyze_real_data_gps_sats]
      simp
    · rw [analyze_smart_telemetry_critical_alerts, gpsCriticalMsg_mem_smartCriticals,
        armedPhysics_gps_sats, analyze_real_data_gps_sats]
      norm_num
  · intro h
    simp only [update_from_telemetry, h]
    refine ⟨?_, ?_, ?_⟩
    · rw [analyze_smart_telemetry_gps_sats, analyze_real_data_gps_sats]
      simp
    · intro hc
      rw [analyze_smart_telemetry_critical_alerts, gpsCriticalMsg_mem_smartCriticals,
        armedPhysics_gps_sats, analyze_real_data_gps_sats] at hc
      norm_num at hc
    · intro n hw
      rw [analyze_smart_telemetry_warnings] at hw
      have := (gpsLimitedMsg_mem_smartWarnings hw).1
      rw [armedPhysics_gps_sats, analyze_real_data_gps_sats, GPS_MIN_SATELLITES] at this
      norm_num at this

/-- Witness for `gps_flag_lossy_mapping` at concrete frames carrying
`gps_ok = False` and `gps_ok = True`. -/
theorem gps_flag_lossy_mapping_witness :
    (update_from_telemetry initState { gps_ok := some false } 0 zeroMath).gps_sats = 3 ∧
    gpsCriticalMsg ∈
      (update_from_telemetry initState { gps_ok := some false } 0 zeroMath).critical_alerts ∧
    (update_from_telemetry initState { gps_ok := some true } 0 zeroMath).gps_sats = 8 :=
  have h1 := (gps_flag_lossy_mapping initState { gps_ok := some false } 0 zeroMath).1 rfl
  have h2 := (gps_flag_lossy_mapping initState { gps_ok := some true } 0 zeroMath).2 rfl
  ⟨h1.1, h1.2, h2.1⟩

set_option maxRecDepth 100000 in
/-- C1 fails on the code: with the link monitor reporting `"NO DATA"`,
`_analyze_real_data` does produce exactly the single no-telemetry
critical alert and no warnings — but `update_from_telemetry`
unconditionally runs `_analyze_smart_telemetry` right after it, which
clears the lists and re-analyzes the stale state, so the alert report
a cycle actually ends with has the no-telemetry alert wiped (here
replaced by a battery alert computed from the stale state). -/
theorem no_telemetry_alert_overwritten :
    (analyze_real_data
        { initState with connection_status := "NO DATA", battery := 10, gps_sats := 8 }).critical_alerts
      = [noTelemetryMsg] ∧
    (analyze_real_data
        { initState with connection_status := "NO DATA", battery := 10, gps_sats := 8 }).warnings
      = [] ∧
    (update_from_telemetry
        { initState with connection_status := "NO DATA", battery := 10, gps_sats := 8 }
        {} 0 zeroMath).critical_alerts = [critBatteryMsg 3] ∧
    noTelemetryMsg ∉
      (update_from_telemetry
        { initState with connection_status := "NO DATA", battery := 10, gps_sats := 8 }
        {} 0 zeroMath).critical_alerts := by
  refine ⟨?_, ?_, ?_, ?_⟩ <;> with_unfolding_all decide
